import Mathlib

/-!
Verification of the usability-testing tool (`src/Usability.py`): the CSV-backed
append-only record store, the session timer held in session state, the consent
submission handler, and the report statistics (grouped means, reindexed display
order, ordinary-least-squares best fit).
-/

namespace Usability

/-- A scalar cell value of a record, as persisted to a table: strings, numbers
(Python floats modelled as rationals) and booleans. -/
inductive Value where
  | str : String → Value
  | num : ℚ → Value
  | boolean : Bool → Value
deriving DecidableEq

/-- A record as built by the form handlers: an ordered mapping from field
names to scalar values (a Python dict preserves insertion order). -/
abbrev Record := List (String × Value)

/-- The on-disk CSV table: a header row of field names followed by the data
rows, one list of cell values per appended record. -/
structure CsvFile where
  header : List String
  rows : List (List Value)
deriving DecidableEq

/-- Embeds `save_to_csv(data_dict, csv_file)` (src/Usability.py lines 20-25):
if the backing file does not exist (`none`), write the record's keys as the
header and its values as the single row; otherwise append the values as a new
row, leaving the header and the existing rows untouched. -/
def save_to_csv (data_dict : Record) (csv_file : Option CsvFile) : CsvFile :=
  match csv_file with
  | none =>
      { header := data_dict.map Prod.fst, rows := [data_dict.map Prod.snd] }
  | some f =>
      { f with rows := f.rows ++ [data_dict.map Prod.snd] }

/-- Embeds `load_from_csv(csv_file)` (src/Usability.py lines 28-32): read the
whole file if it exists, otherwise return an empty table (`pd.DataFrame()`),
with no error path. -/
def load_from_csv (csv_file : Option CsvFile) : CsvFile :=
  match csv_file with
  | some f => f
  | none => { header := [], rows := [] }

/-- A sequence of `save_to_csv` calls against the same file, each seeing the
file state left by the previous one. -/
def saveAll (ds : List Record) (csv_file : Option CsvFile) : Option CsvFile :=
  ds.foldl (fun f d => some (save_to_csv d f)) csv_file

/-- Number of data rows a load of the file would report. -/
def rowCount (csv_file : Option CsvFile) : Nat :=
  (load_from_csv csv_file).rows.length

lemma saveAll_some (ds : List Record) (f : CsvFile) :
    saveAll ds (some f) =
      some { f with rows := f.rows ++ ds.map (fun d => d.map Prod.snd) } := by
  induction ds generalizing f with
  | nil => simp [saveAll]
  | cons d rest ih =>
      simp only [saveAll, List.foldl_cons] at *
      rw [ih (save_to_csv d (some f))]
      simp [save_to_csv]

lemma saveAll_none (ds : List Record) :
    (load_from_csv (saveAll ds none)).rows = ds.map (fun d => d.map Prod.snd) := by
  cases ds with
  | nil => simp [saveAll, load_from_csv]
  | cons d rest =>
      have h : saveAll (d :: rest) none = saveAll rest (some (save_to_csv d none)) := rfl
      rw [h, saveAll_some rest (save_to_csv d none)]
      simp [save_to_csv, load_from_csv]

/-- C1: appending a record R to a table whose backing file does not exist and
loading the table back yields exactly one row holding R's values, with the
header being R's field names in the order supplied, so that zipping header
with the row recovers R. -/
theorem fresh_save_load_single_row (d : Record) :
    (load_from_csv (some (save_to_csv d none))).rows = [d.map Prod.snd]
    ∧ (load_from_csv (some (save_to_csv d none))).header = d.map Prod.fst
    ∧ (load_from_csv (some (save_to_csv d none))).header.zip (d.map Prod.snd) = d := by
  refine ⟨rfl, rfl, ?_⟩
  show (d.map Prod.fst).zip (d.map Prod.snd) = d
  rw [List.zip_map']
  simp

/-- C2: appending N records one at a time yields a load of exactly N rows, in
append order; and any single append to an existing file only adds one row at
the end, leaving every previously written row (and the header) unchanged. -/
theorem append_only_in_order (ds : List Record) (d : Record) (f : CsvFile) :
    (load_from_csv (saveAll ds none)).rows = ds.map (fun r => r.map Prod.snd)
    ∧ (load_from_csv (saveAll ds none)).rows.length = ds.length
    ∧ (save_to_csv d (some f)).rows = f.rows ++ [d.map Prod.snd]
    ∧ (save_to_csv d (some f)).header = f.header := by
  refine ⟨saveAll_none ds, ?_, rfl, rfl⟩
  rw [saveAll_none ds]
  simp

/-- C3: loading a table whose backing file is absent returns an empty result
with zero rows; the embedded loader is total, mirroring the guarded
`os.path.isfile` check that leaves no error path. -/
theorem load_missing_file_empty :
    load_from_csv none = { header := [], rows := [] }
    ∧ (load_from_csv none).rows.length = 0 := ⟨rfl, rfl⟩

/-- User-visible outcome of a form submission: `st.warning` or `st.success`. -/
inductive Feedback where
  | warning : String → Feedback
  | success : String → Feedback
deriving DecidableEq

/-- Embeds the Consent submit handler (src/Usability.py lines 68-77): with the
checkbox unchecked a warning is shown and nothing is written; otherwise the
consent record is appended to the consent table. -/
def submitConsent (consent_given : Bool) (ts : String) (csv_file : Option CsvFile) :
    Feedback × Option CsvFile :=
  if !consent_given then
    (.warning "You must agree to the consent terms before proceeding.", csv_file)
  else
    (.success "Your consent has been recorded. Thank you!",
      some (save_to_csv
        [("timestamp", .str ts), ("consent_given", .boolean consent_given)] csv_file))

/-- C8: submitting the Consent form with the checkbox unchecked produces the
warning and leaves the backing file, hence the table's row count, exactly as
it was: no record is written and no other persisted state changes. -/
theorem consent_unchecked_no_write (ts : String) (csv_file : Option CsvFile) :
    submitConsent false ts csv_file
      = (.warning "You must agree to the consent terms before proceeding.", csv_file)
    ∧ rowCount (submitConsent false ts csv_file).2 = rowCount csv_file := by
  constructor <;> simp [submitConsent]

/-- The per-session timer state (`st.session_state`): an optional start
timestamp and an optional last-computed task duration, both in seconds. -/
structure SessionState where
  start_time : Option ℚ
  task_duration : Option ℚ
deriving DecidableEq

/-- Embeds the Start Task Timer button (src/Usability.py line 117): store the
current time as `start_time`, silently overwriting any previous one. -/
def startTimer (now : ℚ) (s : SessionState) : SessionState :=
  { s with start_time := some now }

/-- Embeds the Stop Task Timer button (src/Usability.py lines 120-124), which
is gated on `start_time` being present: compute the elapsed duration, store it
as `task_duration` and delete `start_time`; with no `start_time` the handler
body does not run at all. -/
def stopTimer (now : ℚ) (s : SessionState) : SessionState :=
  match s.start_time with
  | some t0 => { start_time := none, task_duration := some (now - t0) }
  | none => s

/-- Embeds the read-once consumption of the duration inside Save Task Results
(src/Usability.py lines 131 and 145-147): read `task_duration` (absent gives
`none`), then delete both `start_time` and `task_duration`. -/
def consume_duration (s : SessionState) : Option ℚ × SessionState :=
  (s.task_duration, { start_time := none, task_duration := none })

/-- C9: starting the timer at `t0` and stopping it at `t0 + D` stores and then
yields a consumed duration of exactly `D` (the model's clock is exact, so
"within clock resolution" is met); consuming a second time without an
intervening stop yields unset (`none`); and stopping while no start time is
present changes no state. -/
theorem timer_start_stop_consume (t0 D t : ℚ) (s s2 : SessionState)
    (h : s2.start_time = none) :
    (stopTimer (t0 + D) (startTimer t0 s)).task_duration = some D
    ∧ (consume_duration (stopTimer (t0 + D) (startTimer t0 s))).1 = some D
    ∧ (consume_duration
        ((consume_duration (stopTimer (t0 + D) (startTimer t0 s))).2)).1 = none
    ∧ stopTimer t s2 = s2 := by
  refine ⟨?_, ?_, rfl, ?_⟩
  · simp [startTimer, stopTimer]
  · simp [startTimer, stopTimer, consume_duration]
  · cases s2 with
    | mk st dur => simp only [SessionState.start_time] at h; simp [stopTimer, h]

/-- Instantiation of the timer property at concrete inputs. -/
theorem timer_start_stop_consume_witness :
    (stopTimer ((3 : ℚ) + 5) (startTimer 3 ⟨none, none⟩)).task_duration = some 5
    ∧ (consume_duration (stopTimer ((3 : ℚ) + 5) (startTimer 3 ⟨none, none⟩))).1 = some 5
    ∧ (consume_duration
        ((consume_duration (stopTimer ((3 : ℚ) + 5) (startTimer 3 ⟨none, none⟩))).2)).1 = none
    ∧ stopTimer 7 ⟨none, some 2⟩ = ⟨none, some 2⟩ :=
  timer_start_stop_consume 3 5 7 ⟨none, none⟩ ⟨none, some 2⟩ rfl

/-- Embeds `duration_val if duration_val else ""` in the Save Task Results
handler (src/Usability.py line 138): Python falsiness makes both a missing
duration (`None`) and an exact `0.0` produce the empty string. -/
def durationCell (duration_val : Option ℚ) : Value :=
  match duration_val with
  | none => .str ""
  | some q => if q = 0 then .str "" else .num q

/-- Embeds the `data_dict` built by Save Task Results
(src/Usability.py lines 133-141). -/
def taskDataDict (ts user task_name succ : String) (duration_val : Option ℚ)
    (confidence : ℚ) (notes : String) : Record :=
  [("timestamp", .str ts), ("user", .str user), ("task_name", .str task_name),
   ("success", .str succ), ("duration_seconds", durationCell duration_val),
   ("confidence_rating", .num confidence), ("notes", .str notes)]

/-- C10: if the stored task duration is absent or exactly zero, the record's
`duration_seconds` field is written as the empty string, so a zero elapsed time
is stored identically to a never-used timer; a strictly nonzero duration is
persisted as a number. -/
theorem zero_duration_written_empty (ts user task_name succ notes : String)
    (confidence : ℚ) (d : Option ℚ) (q : ℚ)
    (h : d = none ∨ d = some 0) (hq : q ≠ 0) :
    ("duration_seconds", Value.str "")
        ∈ taskDataDict ts user task_name succ d confidence notes
    ∧ durationCell d = .str ""
    ∧ durationCell (some q) = .num q := by
  have hd : durationCell d = .str "" := by
    rcases h with h | h <;> simp [durationCell, h]
  refine ⟨?_, hd, by simp [durationCell, hq]⟩
  simp [taskDataDict, hd]

/-- Instantiation of the duration-falsiness property at concrete inputs. -/
theorem zero_duration_written_empty_witness :
    ("duration_seconds", Value.str "")
        ∈ taskDataDict "t" "u" "Export Data" "Yes" (some 0) 3 "n"
    ∧ durationCell (some 0) = .str ""
    ∧ durationCell (some 7) = .num 7 :=
  zero_duration_written_empty "t" "u" "Export Data" "Yes" "n" 3 (some 0) 7
    (Or.inr rfl) (by norm_num)

/-- The columns of a loaded Task row consulted by the report
(src/Usability.py lines 190-218); the other columns (timestamp, user,
confidence_rating, notes) are never read there. A missing `duration_seconds`
(empty CSV cell, NaN after `pd.read_csv`) is `none`. -/
structure TaskRow where
  success : String
  task_name : String
  duration_seconds : Option ℚ
deriving DecidableEq

/-- The durations contributing to one group of
`task_df.groupby(key)['duration_seconds'].mean()`: the present (non-NaN)
durations of the rows whose `key` column equals `k`. -/
def groupVals (key : TaskRow → String) (rows : List TaskRow) (k : String) : List ℚ :=
  rows.filterMap (fun r => if key r = k then r.duration_seconds else none)

/-- The mean pandas reports for group `k`: NaN (`none`) when no present
duration contributes, otherwise the arithmetic mean of the present durations
(pandas `mean` skips NaN). -/
def meanOfGroup (key : TaskRow → String) (rows : List TaskRow) (k : String) : Option ℚ :=
  if groupVals key rows k = [] then none
  else some ((groupVals key rows k).sum / (groupVals key rows k).length)

/-- The group index of `task_df.groupby(key)`: the distinct values of the
`key` column, in sorted order (pandas groupby sorts group keys). -/
def groupKeys (key : TaskRow → String) (rows : List TaskRow) : List String :=
  List.insertionSort (· ≤ ·) (rows.map key).dedup

/-- Embeds `task_df.groupby(key)['duration_seconds'].mean()`
(src/Usability.py lines 190-191): one entry per distinct key value. -/
def groupbyMean (key : TaskRow → String) (rows : List TaskRow) :
    List (String × Option ℚ) :=
  (groupKeys key rows).map (fun k => (k, meanOfGroup key rows k))

/-- Embeds `avg_duration.reindex(['Yes', 'Partial', 'No'])`
(src/Usability.py line 192): the result has exactly these three labels in this
order; a label absent from the grouped series receives NaN (`none`). The
display loop (lines 217-218) then prints every entry of this series. -/
def reindexStatus (g : List (String × Option ℚ)) : List (String × Option ℚ) :=
  ["Yes", "Partial", "No"].map (fun k => (k, Option.join (g.lookup k)))

lemma lookup_map_pair (f : String → Option ℚ) (l : List String) (k : String) :
    (l.map fun a => (a, f a)).lookup k = if k ∈ l then some (f k) else none := by
  induction l with
  | nil => simp [List.lookup]
  | cons a l ih =>
      by_cases hka : k = a
      · subst hka; simp [List.lookup]
      · have hb : (k == a) = false := by simp [hka]
        simp [List.lookup, hb, ih, hka]

lemma join_lookup_groupbyMean (key : TaskRow → String) (rows : List TaskRow)
    (k : String) :
    Option.join ((groupbyMean key rows).lookup k)
      = if k ∈ groupKeys key rows then meanOfGroup key rows k else none := by
  rw [groupbyMean, lookup_map_pair]
  split <;> rfl

/-- The three Task rows of the worked example in the spec. -/
def exampleTaskRows : List TaskRow :=
  [⟨"Yes", "Authorize App", some 10⟩, ⟨"Yes", "Authorize App", some 20⟩,
   ⟨"No", "Authorize App", some 5⟩]

/-- C6: on the example rows the grouped mean by success is 15 for Yes and 5
for No with no Partial group; and in general a row with a missing duration
contributes to no group mean (by success or by task_name): it is excluded,
never counted as zero. -/
theorem grouped_mean_excludes_missing (rows : List TaskRow) (r : TaskRow)
    (k : String) (h : r.duration_seconds = none) :
    meanOfGroup TaskRow.success exampleTaskRows "Yes" = some 15
    ∧ meanOfGroup TaskRow.success exampleTaskRows "No" = some 5
    ∧ "Partial" ∉ groupKeys TaskRow.success exampleTaskRows
    ∧ meanOfGroup TaskRow.success (rows ++ [r]) k
        = meanOfGroup TaskRow.success rows k
    ∧ meanOfGroup TaskRow.task_name (rows ++ [r]) k
        = meanOfGroup TaskRow.task_name rows k := by
  have hgv : ∀ key : TaskRow → String,
      groupVals key (rows ++ [r]) k = groupVals key rows k := by
    intro key
    simp [groupVals, List.filterMap_append, h]
  have hyes : groupVals TaskRow.success exampleTaskRows "Yes" = [10, 20] := by
    simp +decide [groupVals, exampleTaskRows]
  have hno : groupVals TaskRow.success exampleTaskRows "No" = [5] := by
    simp +decide [groupVals, exampleTaskRows]
  refine ⟨?_, ?_, ?_, ?_, ?_⟩
  · rw [meanOfGroup, hyes]
    norm_num
    exact fun hx => absurd hx (List.cons_ne_nil _ _)
  · rw [meanOfGroup, hno]
    norm_num
  · simp only [groupKeys, List.mem_insertionSort, List.mem_dedup]
    simp +decide [exampleTaskRows]
  · simp [meanOfGroup, hgv]
  · simp [meanOfGroup, hgv]

/-- Instantiation of the grouped-mean property at concrete inputs. -/
theorem grouped_mean_excludes_missing_witness :
    meanOfGroup TaskRow.success exampleTaskRows "Yes" = some 15
    ∧ meanOfGroup TaskRow.success exampleTaskRows "No" = some 5
    ∧ "Partial" ∉ groupKeys TaskRow.success exampleTaskRows
    ∧ meanOfGroup TaskRow.success (exampleTaskRows ++ [⟨"Partial", "Export Data", none⟩]) "Partial"
        = meanOfGroup TaskRow.success exampleTaskRows "Partial"
    ∧ meanOfGroup TaskRow.task_name (exampleTaskRows ++ [⟨"Partial", "Export Data", none⟩]) "Partial"
        = meanOfGroup TaskRow.task_name exampleTaskRows "Partial" :=
  grouped_mean_excludes_missing exampleTaskRows ⟨"Partial", "Export Data", none⟩
    "Partial" rfl

/-- C4 as stated is false: with a single Yes row, the success values Partial
and No have no contributing data, yet the reindexed series the report iterates
over still contains entries for them (holding NaN), so they are displayed, not
absent. -/
theorem status_entries_not_absent_counterexample :
    reindexStatus (groupbyMean TaskRow.success [⟨"Yes", "Authorize App", some 10⟩])
      = [("Yes", some 10), ("Partial", (none : Option ℚ)), ("No", none)] := by
  have h0 : meanOfGroup TaskRow.success [⟨"Yes", "Authorize App", some 10⟩] "Yes"
      = some 10 := by
    have hg : groupVals TaskRow.success [⟨"Yes", "Authorize App", some 10⟩] "Yes"
        = [10] := by simp +decide [groupVals]
    rw [meanOfGroup, hg]
    norm_num
  have h1 : groupbyMean TaskRow.success [⟨"Yes", "Authorize App", some 10⟩]
      = [("Yes", some 10)] := by
    simp +decide [groupbyMean, groupKeys, h0]
  simp +decide [reindexStatus, h1, List.lookup]
  exact h0

/-- C4 amended: the mean duration by success is displayed in the fixed order
Yes, Partial, No, and a success value with no contributing data is not absent:
its entry is present in the displayed series with a NaN (`none`) value. -/
theorem status_display_fixed_order (rows : List TaskRow) (k : String)
    (hk : k ∈ ["Yes", "Partial", "No"])
    (hnd : groupVals TaskRow.success rows k = []) :
    (reindexStatus (groupbyMean TaskRow.success rows)).map Prod.fst
      = ["Yes", "Partial", "No"]
    ∧ (k, (none : Option ℚ)) ∈ reindexStatus (groupbyMean TaskRow.success rows) := by
  constructor
  · simp [reindexStatus]
  · have h1 : Option.join ((groupbyMean TaskRow.success rows).lookup k) = none := by
      rw [join_lookup_groupbyMean]
      split
      · simp [meanOfGroup, hnd]
      · rfl
    have h2 : (k, Option.join ((groupbyMean TaskRow.success rows).lookup k))
        ∈ reindexStatus (groupbyMean TaskRow.success rows) :=
      List.mem_map_of_mem _ hk
    rwa [h1] at h2

/-- Instantiation of the amended display property at concrete inputs. -/
theorem status_display_fixed_order_witness :
    (reindexStatus (groupbyMean TaskRow.success
        [⟨"Yes", "Authorize App", some 10⟩])).map Prod.fst
      = ["Yes", "Partial", "No"]
    ∧ ("Partial", (none : Option ℚ))
      ∈ reindexStatus (groupbyMean TaskRow.success [⟨"Yes", "Authorize App", some 10⟩]) :=
  status_display_fixed_order [⟨"Yes", "Authorize App", some 10⟩] "Partial"
    (by simp) (by simp +decide [groupVals])

/-- The columns of a loaded Exit row consulted by the report
(src/Usability.py lines 227-246); timestamp and open_feedback are never read
there, and the two sliders always supply numeric values. -/
structure ExitRow where
  satisfaction : ℚ
  difficulty : ℚ
deriving DecidableEq

/-- Models `np.polyfit(x, y, 1)` as called on line 233: degree-1 least
squares. On an empty `x` numpy raises (`expected non-empty vector for x`),
modelled as the error case. With all `x` equal the design matrix is rank
deficient and `lstsq` returns the minimum-norm least-squares solution
(a finite result, with a RankWarning that does not interrupt execution);
otherwise the unique ordinary-least-squares slope and intercept. -/
def polyfit1 (x y : List ℚ) : Except String (ℚ × ℚ) :=
  if x.isEmpty then .error "expected non-empty vector for x"
  else
    let n : ℚ := x.length
    let sx := x.sum
    let sy := y.sum
    let sxx := (x.map (fun a => a * a)).sum
    let sxy := (List.zipWith (fun a b => a * b) x y).sum
    let c := x.headD 0
    if n * sxx - sx * sx = 0 then
      .ok (c * sy / (n * (c * c + 1)), sy / (n * (c * c + 1)))
    else
      .ok ((n * sxy - sx * sy) / (n * sxx - sx * sx),
           (sy * sxx - sx * sxy) / (n * sxx - sx * sx))

/-- Outcome of rendering the Exit Questionnaire expander of the report. -/
inductive ExitOut where
  | noData
  | stats (avg_satisfaction avg_difficulty slope intercept : ℚ)
deriving DecidableEq

/-- Embeds the Exit report branch (src/Usability.py lines 222-248): an empty
table shows the no-data message; otherwise the mean satisfaction, mean
difficulty and the best-fit line are computed and displayed. An exception
escaping the computation is the error case. -/
def exitReport (rows : List ExitRow) : Except String ExitOut :=
  if rows.isEmpty then .ok .noData
  else
    match polyfit1 (rows.map ExitRow.difficulty) (rows.map ExitRow.satisfaction) with
    | .error e => .error e
    | .ok (m, b) =>
        .ok (.stats ((rows.map ExitRow.satisfaction).sum / rows.length)
          ((rows.map ExitRow.difficulty).sum / rows.length) m b)

/-- Outcome of rendering the Task Performance expander of the report. -/
inductive TaskOut where
  | noData
  | stats (by_task by_status : List (String × Option ℚ))
deriving DecidableEq

/-- Embeds the Task report branch (src/Usability.py lines 185-220): an empty
table shows the no-data message; otherwise the grouped means are computed and
the reindexed by-status series is displayed, whatever durations are missing
(the boxplot of `dropna()` and the bar charts accept empty or NaN data
without raising). -/
def taskReport (rows : List TaskRow) : Except String TaskOut :=
  if rows.isEmpty then .ok .noData
  else
    .ok (.stats (groupbyMean TaskRow.task_name rows)
      (reindexStatus (groupbyMean TaskRow.success rows)))

lemma polyfit1_cons_ok (c : ℚ) (t y : List ℚ) :
    ∃ mb, polyfit1 (c :: t) y = .ok mb := by
  rw [polyfit1]
  simp only [List.isEmpty_cons, if_false, Bool.false_eq_true]
  split
  · exact ⟨_, rfl⟩
  · exact ⟨_, rfl⟩

/-- C5 as stated is false: a table with a single Exit row has insufficient
data for the linear fit (fewer than 2 points), yet the report does not
degrade to the no-data outcome — it computes and displays the statistics
anyway. -/
theorem insufficient_data_not_nodata_counterexample :
    exitReport [⟨3, 3⟩] ≠ Except.ok ExitOut.noData := by
  have h : exitReport [⟨3, 3⟩] = .ok (.stats 3 3 (9 / 10) (3 / 10)) := by
    norm_num [exitReport, polyfit1]
  rw [h]
  simp

/-- C5 amended: the report never raises — both report branches always return
a result — and the 'no data' outcome occurs exactly when the loaded table is
empty; a nonempty table with data insufficient for a statistic (a single Exit
row, zero variance in difficulty, or every duration missing) still yields a
computed-statistics outcome, not a 'no data' one. -/
theorem report_nodata_iff_empty (exitRows : List ExitRow) (taskRows : List TaskRow) :
    (∃ o, exitReport exitRows = Except.ok o ∧ (o = ExitOut.noData ↔ exitRows = []))
    ∧ (∃ o, taskReport taskRows = Except.ok o ∧ (o = TaskOut.noData ↔ taskRows = [])) := by
  constructor
  · cases exitRows with
    | nil => exact ⟨.noData, by simp [exitReport], by simp⟩
    | cons r rest =>
        obtain ⟨⟨m, b⟩, hmb⟩ :=
          polyfit1_cons_ok r.difficulty (rest.map ExitRow.difficulty)
            ((r :: rest).map ExitRow.satisfaction)
        refine ⟨.stats (((r :: rest).map ExitRow.satisfaction).sum / ((r :: rest).length : ℚ))
            (((r :: rest).map ExitRow.difficulty).sum / ((r :: rest).length : ℚ)) m b, ?_, by simp⟩
        rw [exitReport]
        simp only [List.isEmpty_cons, if_false, Bool.false_eq_true, List.map_cons] at hmb ⊢
        rw [hmb]
  · cases taskRows with
    | nil => exact ⟨.noData, by simp [taskReport], by simp⟩
    | cons r rest =>
        exact ⟨.stats (groupbyMean TaskRow.task_name (r :: rest))
          (reindexStatus (groupbyMean TaskRow.success (r :: rest))),
          by rw [taskReport]; simp, by simp⟩

/-- The four perfectly collinear Exit rows of the spec's worked example:
satisfaction 5, 4, 3, 2 against difficulty 1, 2, 3, 4. -/
def exampleExitRows : List ExitRow := [⟨5, 1⟩, ⟨4, 2⟩, ⟨3, 3⟩, ⟨2, 4⟩]

/-- C7: the least-squares fit of satisfaction as a function of difficulty
over the example rows is exactly slope -1 and intercept 6, and the Exit
report computes exactly that line (together with the means 7/2 and 5/2). -/
theorem exit_fit_collinear_exact :
    polyfit1 [1, 2, 3, 4] [5, 4, 3, 2] = .ok (-1, 6)
    ∧ exitReport exampleExitRows = .ok (.stats (7 / 2) (5 / 2) (-1) 6) := by
  constructor
  · norm_num [polyfit1]
  · norm_num [exitReport, exampleExitRows, polyfit1]

end Usability
